import Mathlib

/-!
Shallow embedding of the moviepediac-api movie-submission and review
workflows (src/api/serializers/movie.py), with theorems settling the
spec claims about them.

Conventions:
  * time is modelled as an integer number of seconds (`Int`);
  * ratings and monetary amounts are modelled as rationals (`ℚ`);
  * Python `None` becomes `Option.none`; a raised exception (Django
    `ValidationError`, `DoesNotExist`, gateway failures) becomes
    `Except.error`, which also models the transaction rollback: an
    erroring operation returns no new store, so no partial write
    persists;
  * database tables are lists of rows; object-manager calls
    (`filter`, `get`, `create`, `delete`) become the corresponding
    list operations.
-/

deriving instance DecidableEq for Except

namespace Moviepedia

/-! ## Review workflow (MovieReviewDetailSerializer) -/

/-- A `MovieRateReview` row: author-movie rating/content with the
`rated_at` stamp (null until a numeric rating is first written). -/
structure Review where
  id : Nat
  movieId : Nat
  rating : Option ℚ
  ratedAt : Option Int
  content : String
deriving Repr, DecidableEq

/-- The writable part of a review payload; `none` means the key is
absent from `validated_data`. -/
structure ReviewPayload where
  content : Option String
  rating : Option ℚ
deriving Repr, DecidableEq

/-- `MovieReviewDetailSerializer.validate`: at least one of `content`
or `rating` must be supplied. -/
def reviewValidate (p : ReviewPayload) : Except String ReviewPayload :=
  if p.content.isNone ∧ p.rating.isNone then
    .error "At least one of content or rating should be provided"
  else .ok p

/-- `super().update` field application: every key present in
`validated_data` is written onto the instance; `ratedAt` is written
exactly when the update path stamped `rated_at` into the data. -/
def applyReviewFields (inst : Review) (p : ReviewPayload)
    (newRatedAt : Option Int) : Review :=
  { inst with
    content := p.content.getD inst.content
    rating := match p.rating with | some r => some r | none => inst.rating
    ratedAt := match newRatedAt with | some t => some t | none => inst.ratedAt }

/-- The freeze test of `MovieReviewDetailSerializer.update`:
`instance.rating is not None and now > instance.rated_at + 9s`.
(When a rating is set, `rated_at` is always set too; the
rating-without-timestamp case cannot arise from the serializer.) -/
def ratingFrozen (now : Int) (inst : Review) : Bool :=
  match inst.rating, inst.ratedAt with
  | some _, some t => decide (now > t + 9)
  | _, _ => false

/-- `MovieReviewDetailSerializer.update` restricted to the instance
mutation: if a differing rating is submitted it is accepted (stamping
`rated_at := now`) unless the freeze test fires, in which case the
whole update raises and nothing is written. -/
def reviewUpdateInstance (now : Int) (inst : Review) (p : ReviewPayload) :
    Except String Review :=
  match p.rating with
  | some r =>
      if inst.rating = some r then
        .ok (applyReviewFields inst p none)
      else if ratingFrozen now inst then
        .error "Rating is now freezed"
      else
        .ok (applyReviewFields inst p (some now))
  | none => .ok (applyReviewFields inst p none)

/-- Review-side database state: the `MovieRateReview` table and, for
each movie id, its persisted `audience_rating`. -/
structure ReviewDB where
  reviews : List Review
  movies : List (Nat × Option ℚ)
deriving Repr, DecidableEq

/-- The non-null ratings of all reviews of one movie
(`filter(movie=movie).exclude(rating__isnull=True)`). -/
def movieRatings (reviews : List Review) (mid : Nat) : List ℚ :=
  (reviews.filter (fun rv => rv.movieId == mid)).filterMap (fun rv => rv.rating)

/-- The `Avg("rating")` aggregate: `None` over an empty set, otherwise
the arithmetic mean. -/
def audienceAvg (reviews : List Review) (mid : Nat) : Option ℚ :=
  let rs := movieRatings reviews mid
  if rs.isEmpty then none else some (rs.sum / (rs.length : ℚ))

/-- `_update_movie_audience_rating`: recompute the aggregate and save
it on the movie row. -/
def updateMovieAudienceRating (db : ReviewDB) (mid : Nat) : ReviewDB :=
  { db with
    movies := db.movies.map
      (fun m => if m.1 == mid then (m.1, audienceAvg db.reviews mid) else m) }

/-- `MovieReviewDetailSerializer.create`: validate, stamp `rated_at`
when a rating is supplied, persist the review, then recompute the
movie's audience rating. -/
def reviewCreateDB (now : Int) (db : ReviewDB) (newId mid : Nat)
    (p : ReviewPayload) : Except String ReviewDB :=
  match reviewValidate p with
  | .error e => .error e
  | .ok p =>
    let rv : Review :=
      { id := newId, movieId := mid, rating := p.rating
        ratedAt := if p.rating.isSome then some now else none
        content := p.content.getD "" }
    let db' : ReviewDB := { db with reviews := db.reviews ++ [rv] }
    .ok (updateMovieAudienceRating db' mid)

/-- `MovieReviewDetailSerializer.update` at the store level: validate,
mutate the addressed review instance (possibly raising the freeze
error), persist it, then recompute the movie's audience rating. -/
def reviewUpdateDB (now : Int) (db : ReviewDB) (rid : Nat)
    (p : ReviewPayload) : Except String ReviewDB :=
  match reviewValidate p with
  | .error e => .error e
  | .ok p =>
    match db.reviews.find? (fun rv => rv.id == rid) with
    | none => .error "MovieRateReview matching query does not exist"
    | some inst =>
      match reviewUpdateInstance now inst p with
      | .error e => .error e
      | .ok inst' =>
        let db' : ReviewDB := { db with
          reviews := db.reviews.map (fun rv => if rv.id == rid then inst' else rv) }
        .ok (updateMovieAudienceRating db' inst'.movieId)

/-- The persisted `audience_rating` of a movie, when the movie row
exists. -/
def storedRating (db : ReviewDB) (mid : Nat) : Option (Option ℚ) :=
  (db.movies.find? (fun m => m.1 == mid)).map (fun m => m.2)

/-! ### Claim C1: the rating-freeze window -/

/-- C1: the claim states that a differing rating submitted more than 9
seconds after `rated_at` is accepted while one within 9 seconds is
rejected as frozen. The code does the opposite: at `now = 100`
(100 s > 9 s after the stamp at 0) the update raises the frozen-rating
error, and at `now = 5` (within 9 s) it is accepted and `rated_at`
advances to 5. -/
theorem review_freeze_claim_counterexample :
    reviewUpdateInstance 100 ⟨1, 1, some 5, some 0, ""⟩ ⟨none, some 7⟩
      = .error "Rating is now freezed"
    ∧ reviewUpdateInstance 5 ⟨1, 1, some 5, some 0, ""⟩ ⟨none, some 7⟩
      = .ok ⟨1, 1, some 7, some 5, ""⟩ := by
  constructor <;> rfl

/-- C1 (amended): for a review update whose submitted rating differs
from the stored one, the update is accepted (and `rated_at` refreshed
to now) when either no rating was previously set or at most 9 seconds
have elapsed since `rated_at`; an update more than 9 seconds after a
prior rating is rejected with the frozen-rating error and no field of
the review is mutated (the operation returns no updated instance). -/
theorem review_rating_freeze (now : Int) (inst : Review) (p : ReviewPayload)
    (r : ℚ) (hr : p.rating = some r) (hne : ¬ inst.rating = some r) :
    ((inst.rating = none ∨ ∃ t, inst.ratedAt = some t ∧ now ≤ t + 9) →
      reviewUpdateInstance now inst p
          = .ok (applyReviewFields inst p (some now))
        ∧ (applyReviewFields inst p (some now)).ratedAt = some now
        ∧ (applyReviewFields inst p (some now)).rating = some r)
    ∧ (inst.rating ≠ none → (∃ t, inst.ratedAt = some t ∧ now > t + 9) →
      reviewUpdateInstance now inst p = .error "Rating is now freezed") := by
  have hmain : reviewUpdateInstance now inst p
      = if ratingFrozen now inst then .error "Rating is now freezed"
        else .ok (applyReviewFields inst p (some now)) := by
    unfold reviewUpdateInstance
    rw [hr]
    simp [hne]
  constructor
  · intro hacc
    have hfr : ratingFrozen now inst = false := by
      unfold ratingFrozen
      rcases hacc with h | ⟨t, ht, hle⟩
      · rw [h]
      · cases hrq : inst.rating with
        | none => rfl
        | some q =>
            rw [ht]
            simp only [decide_eq_false_iff_not, not_lt]
            omega
    rw [hmain, hfr]
    refine ⟨by simp, by simp [applyReviewFields], ?_⟩
    simp [applyReviewFields, hr]
  · intro hsome ⟨t, ht, hgt⟩
    have hfr : ratingFrozen now inst = true := by
      unfold ratingFrozen
      cases hrq : inst.rating with
      | none => exact absurd hrq hsome
      | some q =>
          rw [ht]
          simp only [decide_eq_true_eq]
          omega
    rw [hmain, hfr]
    simp

/-- Witness for C1 (amended): at `now = 3`, 3 seconds after a rating
stamped at 0, the differing rating 7 is accepted and `rated_at`
becomes 3. -/
theorem review_rating_freeze_witness :
    reviewUpdateInstance 3 ⟨1, 1, some 5, some 0, ""⟩ ⟨none, some 7⟩
        = .ok (applyReviewFields ⟨1, 1, some 5, some 0, ""⟩ ⟨none, some 7⟩ (some 3))
      ∧ (applyReviewFields ⟨1, 1, some 5, some 0, ""⟩ ⟨none, some 7⟩ (some 3)).ratedAt
        = some 3
      ∧ (applyReviewFields ⟨1, 1, some 5, some 0, ""⟩ ⟨none, some 7⟩ (some 3)).rating
        = some 7 :=
  (review_rating_freeze 3 ⟨1, 1, some 5, some 0, ""⟩ ⟨none, some 7⟩ 7 rfl
    (by decide)).1 (Or.inr ⟨0, rfl, by decide⟩)

/-! ### Claim C6: audience rating is the mean of non-null ratings -/

theorem find?_map_setRating (l : List (Nat × Option ℚ)) (mid : Nat) (v : Option ℚ)
    (h : (l.find? (fun m => m.1 == mid)).isSome) :
    (l.map (fun m => if m.1 == mid then (m.1, v) else m)).find?
      (fun m => m.1 == mid) = some (mid, v) := by
  induction l with
  | nil => simp at h
  | cons a t ih =>
      by_cases ha : a.1 = mid
      · subst ha
        simp [List.find?]
      · have ha' : (a.1 == mid) = false := by simpa using ha
        simp only [List.find?, List.map_cons, ha', Bool.false_eq_true, if_false] at h ⊢
        exact ih h

theorem storedRating_update (rvs : List Review) (movs : List (Nat × Option ℚ))
    (mid : Nat) (h : (movs.find? (fun m => m.1 == mid)).isSome) :
    storedRating (updateMovieAudienceRating ⟨rvs, movs⟩ mid) mid
      = some (audienceAvg rvs mid) := by
  unfold storedRating updateMovieAudienceRating
  rw [find?_map_setRating _ _ _ h]
  rfl

theorem reviewUpdateInstance_movieId (now : Int) (inst : Review)
    (p : ReviewPayload) (inst' : Review)
    (h : reviewUpdateInstance now inst p = .ok inst') :
    inst'.movieId = inst.movieId := by
  unfold reviewUpdateInstance at h
  split at h
  · split_ifs at h
    · cases h
      rfl
    · cases h
      rfl
  · cases h
    rfl

/-- C6: after every successful review Create and review Update, the
persisted `audience_rating` of the review's movie equals the
arithmetic mean of the non-null ratings of all reviews of that movie
(`none` when no review carries a rating). -/
theorem audience_rating_mean (now : Int) (db : ReviewDB) (p : ReviewPayload)
    (mid : Nat) (hmovie : (db.movies.find? (fun m => m.1 == mid)).isSome) :
    (∀ newId db', reviewCreateDB now db newId mid p = .ok db' →
        storedRating db' mid
          = some (if (movieRatings db'.reviews mid).isEmpty then none
                  else some ((movieRatings db'.reviews mid).sum
                    / ((movieRatings db'.reviews mid).length : ℚ))))
    ∧ (∀ rid inst db', db.reviews.find? (fun rv => rv.id == rid) = some inst →
        inst.movieId = mid →
        reviewUpdateDB now db rid p = .ok db' →
        storedRating db' mid
          = some (if (movieRatings db'.reviews mid).isEmpty then none
                  else some ((movieRatings db'.reviews mid).sum
                    / ((movieRatings db'.reviews mid).length : ℚ)))) := by
  constructor
  · intro newId db' h
    unfold reviewCreateDB at h
    split at h
    · exact absurd h (by simp)
    · cases h
      rw [storedRating_update _ _ _ hmovie]
      simp [audienceAvg, updateMovieAudienceRating]
  · intro rid inst db' hfind hmid h
    unfold reviewUpdateDB at h
    split at h
    · exact absurd h (by simp)
    · split at h
      · exact absurd h (by simp)
      · split at h
        · exact absurd h (by simp)
        · rename_i sv1 q hval sv2 inst₁ hfindEq sv3 inst' hui
          rw [hfind] at hfindEq
          injection hfindEq with hh
          subst hh
          cases h
          have hm : inst'.movieId = mid :=
            (reviewUpdateInstance_movieId now inst q inst' hui).trans hmid
          rw [hm, storedRating_update _ _ _ hmovie]
          simp [audienceAvg, updateMovieAudienceRating]

/-- Witness for C6: creating a first review with rating 4 on movie 1
persists the mean of the single non-null rating. -/
theorem audience_rating_mean_witness :
    storedRating
        ⟨[⟨1, 1, some 4, some 0, ""⟩], [(1, audienceAvg [⟨1, 1, some 4, some 0, ""⟩] 1)]⟩ 1
      = some (if (movieRatings [⟨1, 1, some 4, some 0, ""⟩] 1).isEmpty then none
              else some ((movieRatings [⟨1, 1, some 4, some 0, ""⟩] 1).sum
                / ((movieRatings [⟨1, 1, some 4, some 0, ""⟩] 1).length : ℚ))) :=
  (audience_rating_mean 0 ⟨[], [(1, none)]⟩ ⟨none, some 4⟩ 1 (by decide)).1 1
    ⟨[⟨1, 1, some 4, some 0, ""⟩], [(1, audienceAvg [⟨1, 1, some 4, some 0, ""⟩] 1)]⟩
    (by rfl)

/-! ## Payment gateway adapter (create_rzp_order) -/

/-- A `Package` row: paid tier fixing the charge amount. -/
structure Package where
  name : String
  amount : ℚ
deriving Repr, DecidableEq

/-- The order owner as seen by the adapter: the user id (orders are
counted by owner) and the email (hashed into the receipt and sent as
the contact note). -/
structure Owner where
  id : Nat
  email : String
deriving Repr, DecidableEq

/-- The payload of `rzp_client.order.create`. -/
structure RzpRequest where
  amount : ℚ
  currency : String
  receipt : String
  payment_capture : Nat
  notesEmail : String
deriving Repr, DecidableEq

/-- The gateway's order-creation response (`status` plus the echoed
order descriptor fields stored by `_update_order_details`). -/
structure RzpResponse where
  status : String
  oid : String
  amount : ℚ
  receipt : String
deriving Repr, DecidableEq

/-- The request `create_rzp_order` sends: `package.amount` in INR,
capture-on-payment, the owner's email as note, and a receipt obtained
by hashing `owner.email : count-of-owner's-existing-orders`; `md5hex`
abstracts the MD5 hex digest and `ordersOwners` lists the owner user
id of every existing `Order` row. -/
def rzpRequestFor (md5hex : String → String) (ordersOwners : List Nat)
    (pkg : Package) (ow : Owner) : RzpRequest :=
  { amount := pkg.amount
    currency := "INR"
    receipt := md5hex (ow.email ++ ":"
      ++ toString (ordersOwners.countP (fun o => o == ow.id)))
    payment_capture := 1
    notesEmail := ow.email }

/-- `create_rzp_order`: no-op on a missing package or owner; otherwise
call the gateway (exceptions propagate), reject any response whose
status is not `"created"`, and return the response otherwise. -/
def create_rzp_order (gateway : RzpRequest → Except String RzpResponse)
    (md5hex : String → String) (ordersOwners : List Nat)
    (package : Option Package) (owner : Option Owner) :
    Except String (Option RzpResponse) :=
  match package, owner with
  | some pkg, some ow =>
    match gateway (rzpRequestFor md5hex ordersOwners pkg ow) with
    | .error e => .error e
    | .ok res =>
      if res.status ≠ "created" then .error "Error creating Razorpay order"
      else .ok (some res)
  | _, _ => .ok none

/-! ### Claim C8: gateway order creation -/

/-- C8: for a non-null package and owner, `create_rzp_order` raises
exactly when the gateway call raises or the response status is not
`"created"`; otherwise it returns the gateway order descriptor, and
the request it sends carries the idempotency receipt hashed from the
owner identifier and the count of the owner's existing orders. -/
theorem create_rzp_order_spec (gateway : RzpRequest → Except String RzpResponse)
    (md5hex : String → String) (ordersOwners : List Nat)
    (pkg : Package) (ow : Owner) :
    ((∃ e, create_rzp_order gateway md5hex ordersOwners (some pkg) (some ow)
        = .error e)
      ↔ (∃ e, gateway (rzpRequestFor md5hex ordersOwners pkg ow) = .error e)
        ∨ (∃ res, gateway (rzpRequestFor md5hex ordersOwners pkg ow) = .ok res
            ∧ res.status ≠ "created"))
    ∧ (∀ res, gateway (rzpRequestFor md5hex ordersOwners pkg ow) = .ok res →
        res.status = "created" →
        create_rzp_order gateway md5hex ordersOwners (some pkg) (some ow)
          = .ok (some res))
    ∧ (rzpRequestFor md5hex ordersOwners pkg ow).receipt
        = md5hex (ow.email ++ ":"
            ++ toString (ordersOwners.countP (fun o => o == ow.id))) := by
  refine ⟨?_, ?_, rfl⟩
  · unfold create_rzp_order
    cases hg : gateway (rzpRequestFor md5hex ordersOwners pkg ow) with
    | error e =>
        simp only [hg]
        exact ⟨fun _ => Or.inl ⟨e, rfl⟩, fun _ => ⟨e, rfl⟩⟩
    | ok res =>
        simp only [hg]
        by_cases hs : res.status = "created"
        · simp [hs]
        · simp [hs]
  · intro res hg hs
    unfold create_rzp_order
    simp only [hg]
    simp [hs]

/-- Witness for C8: a gateway answering with status `"created"` makes
`create_rzp_order` return that response. -/
theorem create_rzp_order_spec_witness :
    create_rzp_order (fun _ => .ok ⟨"created", "ord1", 100, "r"⟩) (fun s => s)
        [] (some ⟨"premium", 100⟩) (some ⟨7, "a@x.com"⟩)
      = .ok (some ⟨"created", "ord1", 100, "r"⟩) :=
  (create_rzp_order_spec (fun _ => .ok ⟨"created", "ord1", 100, "r"⟩)
    (fun s => s) [] ⟨"premium", 100⟩ ⟨7, "a@x.com"⟩).2.1
    ⟨"created", "ord1", 100, "r"⟩ rfl rfl

/-! ## Title validation (MovieSerializer.validate_title) -/

/-- The character class of the regex `[\n\t\s]+` used by
`validate_title` — Python's Unicode `\s` (which already subsumes the
redundant `\n\t`). -/
def isPySpace (c : Char) : Bool :=
  c == ' ' || c == '\t' || c == '\n' || c == '\r' || c == '\x0b' || c == '\x0c'
    || c == '\x1c' || c == '\x1d' || c == '\x1e' || c == '\x1f'
    || c == '\x85' || c == '\xa0' || c == '\u1680'
    || ('\u2000' ≤ c && c ≤ '\u200a')
    || c == '\u2028' || c == '\u2029' || c == '\u202f' || c == '\u205f'
    || c == '\u3000'

/-- `re.sub("[\n\t\s]+", " ", title)` on a character list: every
maximal run of whitespace becomes a single ASCII space; the flag
records whether the previous character was part of such a run. -/
def collapseWSAux : Bool → List Char → List Char
  | _, [] => []
  | prevSpace, c :: cs =>
    if isPySpace c then
      if prevSpace then collapseWSAux true cs
      else ' ' :: collapseWSAux true cs
    else c :: collapseWSAux false cs

/-- The whitespace normalization of `validate_title` (no trimming of
the leading/trailing collapsed space). -/
def collapseWS (s : String) : String :=
  ⟨collapseWSAux false s.data⟩

/-- Python `str.isascii()`: every character is below U+0080. -/
def isAsciiStr (s : String) : Bool :=
  s.data.all (fun c => decide (c.toNat < 128))

/-- Python `str.title()` restricted to ASCII input (the only input it
ever receives here): the first letter of every alphabetic run is
uppercased, the rest lowercased. -/
def pyTitleAux : Bool → List Char → List Char
  | _, [] => []
  | prevAlpha, c :: cs =>
    if c.isAlpha then
      (if prevAlpha then c.toLower else c.toUpper) :: pyTitleAux true cs
    else c :: pyTitleAux false cs

/-- Python `str.title()` (ASCII fragment). -/
def pyTitle (s : String) : String :=
  ⟨pyTitleAux false s.data⟩

/-- `MovieSerializer.validate_title`: collapse whitespace runs, reject
any remaining non-ASCII character, and title-case the result. -/
def validate_title (title : String) : Except String String :=
  let t := collapseWS title
  if ¬ isAsciiStr t then
    .error "Movie title should be in English i.e., characters [A-Z] and [0-9]"
  else .ok (pyTitle t)

/-! ## Submission workflow entity store -/

/-- A `User` row (the fields the workflow touches). -/
structure UserRec where
  id : Nat
  email : String
  firstName : String
  lastName : String
deriving Repr, DecidableEq

/-- A `Profile` row. -/
structure ProfileRec where
  id : Nat
  userId : Nat
  onboarded : Bool
deriving Repr, DecidableEq

/-- A `Movie` row (the fields the workflow touches); `genres` is the
many-to-many relation as a list of `Genre` ids. -/
structure MovieRow where
  id : Nat
  title : String
  langId : Nat
  orderId : Nat
  state : String
  approved : Bool
  packageName : Option String
  genres : List Nat
deriving Repr, DecidableEq

/-- An `Order` row; the gateway fields stay null until a gateway order
is created. -/
structure OrderRec where
  id : Nat
  ownerId : Nat
  orderId : Option String
  amount : Option ℚ
  receiptNumber : Option String
deriving Repr, DecidableEq

/-- A confirmed `CrewMember` row. -/
structure CrewRec where
  profileId : Nat
  movieId : Nat
  role : String
deriving Repr, DecidableEq

/-- A pending `CrewMemberRequest` row. -/
structure CrewReqRec where
  requestorId : Nat
  userId : Nat
  movieId : Nat
  role : String
  state : String
deriving Repr, DecidableEq

/-- The entity store of the submission workflow. `nextId` feeds every
fresh primary key. -/
structure DB where
  langs : List (Nat × String)
  genres : List (Nat × String)
  roles : List String
  packages : List Package
  users : List UserRec
  profiles : List ProfileRec
  movies : List MovieRow
  orders : List OrderRec
  crew : List CrewRec
  crewReqs : List CrewReqRec
  nextId : Nat
deriving Repr, DecidableEq

/-- Modelled from the spec: the default of the `CrewMemberRequest.state`
column. The model module `api/models/movie.py` is not among the
sources; the spec fixes newly requested roles as pending with state
SUBMITTED (state enum SUBMITTED / APPROVED / REJECTED). -/
def defaultCrewReqState : String := "SUBMITTED"

/-- Modelled from the spec: the default of the `Movie.approved` boolean
column. The model module is not among the sources; the spec fixes it
as unset/false unless the workflow sets it. -/
def defaultMovieApproved : Bool := false

/-- Python `str.lower()` (character-wise, executable). -/
def toLowerStr (s : String) : String := ⟨s.data.map Char.toLower⟩

/-- Python `str.strip()`: drop leading and trailing whitespace. -/
def trimStr (s : String) : String :=
  ⟨((s.data.dropWhile isPySpace).reverse.dropWhile isPySpace).reverse⟩

/-- `name.strip().lower()`. -/
def normalizeName (s : String) : String := toLowerStr (trimStr s)

/-- Django `Manager.get` on a filtered list: exactly one row, raising
`DoesNotExist` / `MultipleObjectsReturned` otherwise. -/
def getUnique {α : Type} (l : List α) (p : α → Bool) (errName : String) :
    Except String α :=
  match l.filter p with
  | [x] => .ok x
  | [] => .error (errName ++ " matching query does not exist")
  | _ => .error ("get() returned more than one " ++ errName)

/-- `Role.objects.get(name=...)` (a `Role` is just its name). -/
def roleGet (db : DB) (name : String) : Except String String :=
  if db.roles.contains name then .ok name
  else .error "Role matching query does not exist"

/-- `MovieLanguageSerializer.create` applied to the validated
(normalized) name: fetch the `MovieLanguage` row with that exact name
or insert a new one. -/
def langGetOrCreate (db : DB) (name : String) : Nat × DB :=
  match db.langs.find? (fun l => l.2 == name) with
  | some l => (l.1, db)
  | none =>
    (db.nextId,
     { db with langs := db.langs ++ [(db.nextId, name)], nextId := db.nextId + 1 })

/-- `MovieSerializer._get_or_create_genres`: despite its name it only
filters the existing `Genre` rows whose name is among the normalized
payload names — it never creates a `Genre`, silently dropping unknown
names. -/
def getOrCreateGenres (genreTable : List (Nat × String))
    (genresData : List String) : List (Nat × String) :=
  let names := (genresData.filter (fun n => n ≠ "")).map normalizeName
  genreTable.filter (fun g => names.contains g.2)

/-- The director identity payload of `DirectorSerializer`. -/
structure DirectorData where
  firstName : String
  lastName : String
  email : String
  contact : Option String
deriving Repr, DecidableEq

/-- `Profile.objects.get(user__email=email)` with the `DoesNotExist`
branch of `_attach_director_role`: return the unique profile whose
user carries the email, or provision a new unverified user+profile;
more than one match raises (uncaught `MultipleObjectsReturned`). -/
def directorProfileFor (db : DB) (d : DirectorData) :
    Except String (ProfileRec × DB) :=
  match db.profiles.filter (fun pr =>
      (db.users.find? (fun u => u.id == pr.userId)).any
        (fun u => u.email == d.email)) with
  | [p] => .ok (p, db)
  | [] =>
    let u : UserRec := ⟨db.nextId, d.email, d.firstName, d.lastName⟩
    let p : ProfileRec := ⟨db.nextId + 1, u.id, false⟩
    .ok (p, { db with users := db.users ++ [u], profiles := db.profiles ++ [p],
                      nextId := db.nextId + 2 })
  | _ => .error "get() returned more than one Profile"

/-- `MovieSerializer._attach_director_role`. When the creator is the
director the code writes the creator's email into the (possibly empty)
director dict, so the body runs even with no director payload; it then
resolves/provisions the director profile, deletes every Director
CrewMember of the movie, and inserts exactly one. -/
def attachDirectorRole (db : DB) (directorData : Option DirectorData)
    (creator : UserRec) (movieId : Nat) (creatorIsDirector : Bool) :
    Except String DB :=
  let dd : Option DirectorData :=
    if creatorIsDirector then
      some (match directorData with
            | some d => { d with email := creator.email }
            | none => ⟨"", "", creator.email, none⟩)
    else directorData
  match dd with
  | none => .ok db
  | some d =>
    match directorProfileFor db d with
    | .error e => .error e
    | .ok (p, db2) =>
      match roleGet db2 "Director" with
      | .error e => .error e
      | .ok _ =>
        .ok { db2 with crew :=
          (db2.crew.filter (fun c => !(c.role == "Director" && c.movieId == movieId)))
            ++ [⟨p.id, movieId, "Director"⟩] }

/-- `MovieSerializer._attach_creator_roles`: resolve the creator's
non-director role names against the `Role` table, look up the
creator's profile, then either (creator is director) delete the
creator's non-director CrewMember rows on the movie and insert one
CrewMember per role, or (creator is not director) delete every
CrewMemberRequest of the movie and insert one request per role. -/
def attachCreatorRoles (db : DB) (creatorRolesData : List String)
    (creator : UserRec) (movieId : Nat) (creatorIsDirector : Bool) :
    Except String DB :=
  match roleGet db "Director" with
  | .error e => .error e
  | .ok _ =>
    match getUnique db.profiles (fun pr => pr.userId == creator.id) "Profile" with
    | .error e => .error e
    | .ok creatorProfile =>
      let creatorRoleNames := creatorRolesData.filter (fun n => n ≠ "Director")
      let creatorRoles := db.roles.filter (fun r => creatorRoleNames.contains r)
      if creatorIsDirector then
        .ok { db with crew :=
          (db.crew.filter (fun c => !(c.movieId == movieId
              && c.profileId == creatorProfile.id && !(c.role == "Director"))))
            ++ creatorRoles.map (fun r => ⟨creatorProfile.id, movieId, r⟩) }
      else
        .ok { db with crewReqs :=
          (db.crewReqs.filter (fun r => r.movieId != movieId))
            ++ creatorRoles.map (fun r =>
              ⟨creator.id, creator.id, movieId, r, defaultCrewReqState⟩) }

/-- `MovieSerializer._is_director_present`. -/
def isDirectorPresent (db : DB) (movieId : Nat) : Except String Bool :=
  match roleGet db "Director" with
  | .error e => .error e
  | .ok _ =>
    .ok (db.crew.any (fun c => c.movieId == movieId && c.role == "Director"))

/-- `RoleSerializer.validate_name` over the submitted role list: every
role name must exist in the `Role` table. -/
def validateRoles (db : DB) (roles : List String) : Except String (List String) :=
  if roles.all (fun r => db.roles.contains r) then .ok roles
  else .error "Unknown role"

/-- The post-validation payload of `MovieSerializer.create`. -/
structure CreatePayload where
  title : String
  lang : String
  genresData : List String
  roles : List String
  director : Option DirectorData
deriving Repr, DecidableEq

/-- `MovieSerializer.create` after the language step: create a fresh
owner-anchoring `Order`, the `Movie` row (state CREATED, approved set
exactly when the creator's roles contain Director), resolve genres,
attach creator roles and the director, and finally require a Director
crew member; an error models the aborted transaction (no partial
state is returned). -/
def movieCreateRest (db1 : DB) (user : UserRec) (p : CreatePayload)
    (langId : Nat) : Except String (DB × Nat) :=
  let orderId := db1.nextId
  let db2 := { db1 with
    orders := db1.orders ++ [(⟨orderId, user.id, none, none, none⟩ : OrderRec)]
    nextId := db1.nextId + 1 }
  let creatorIsDirector := p.roles.any (fun r => r == "Director")
  let movieId := db2.nextId
  let movie : MovieRow :=
    { id := movieId, title := p.title, langId := langId, orderId := orderId
      state := "CREATED"
      approved := if creatorIsDirector then true else defaultMovieApproved
      packageName := none
      genres := (getOrCreateGenres db2.genres p.genresData).map (fun g => g.1) }
  let db3 := { db2 with movies := db2.movies ++ [movie], nextId := db2.nextId + 1 }
  match attachCreatorRoles db3 p.roles user movieId creatorIsDirector with
  | .error e => .error e
  | .ok db4 =>
    match attachDirectorRole db4 p.director user movieId creatorIsDirector with
    | .error e => .error e
    | .ok db5 =>
      match isDirectorPresent db5 movieId with
      | .error e => .error e
      | .ok present =>
        if present then .ok (db5, movieId) else .error "Director must be provided"

/-- `MovieSerializer.create` (body, fields already validated): the
language step followed by `movieCreateRest`. -/
def movieCreateBody (db0 : DB) (user : UserRec) (p : CreatePayload) :
    Except String (DB × Nat) :=
  movieCreateRest (langGetOrCreate db0 p.lang).2 user p (langGetOrCreate db0 p.lang).1

/-- The movie Create operation: serializer field validation
(`validate_title`, role existence, language/genre name normalization)
followed by `MovieSerializer.create`. -/
def movieCreate (db : DB) (user : UserRec) (title lang : String)
    (genres roles : List String) (director : Option DirectorData) :
    Except String (DB × Nat) :=
  match validate_title title with
  | .error e => .error e
  | .ok t =>
    match validateRoles db roles with
    | .error e => .error e
    | .ok _ =>
      movieCreateBody db user
        { title := t, lang := normalizeName lang
          genresData := genres.map (fun n => if n == "" then "" else toLowerStr n)
          roles := roles, director := director }

/-- The persisted `approved` flag of a movie row. -/
def movieApproved (db : DB) (mid : Nat) : Option Bool :=
  (db.movies.find? (fun m => m.id == mid)).map (fun m => m.approved)

theorem langGetOrCreate_frame (db : DB) (name : String) :
    (langGetOrCreate db name).2.genres = db.genres
    ∧ (langGetOrCreate db name).2.roles = db.roles
    ∧ (langGetOrCreate db name).2.packages = db.packages
    ∧ (langGetOrCreate db name).2.users = db.users
    ∧ (langGetOrCreate db name).2.profiles = db.profiles
    ∧ (langGetOrCreate db name).2.movies = db.movies
    ∧ (langGetOrCreate db name).2.orders = db.orders
    ∧ (langGetOrCreate db name).2.crew = db.crew
    ∧ (langGetOrCreate db name).2.crewReqs = db.crewReqs
    ∧ db.nextId ≤ (langGetOrCreate db name).2.nextId := by
  unfold langGetOrCreate
  cases db.langs.find? (fun l => l.2 == name) <;> simp

theorem find?_append_right {α : Type} (l1 l2 : List α) (p : α → Bool)
    (h : ∀ a ∈ l1, p a = false) : (l1 ++ l2).find? p = l2.find? p := by
  induction l1 with
  | nil => rfl
  | cons a t ih =>
      have ha : p a = false := h a (List.mem_cons_self a t)
      have ht : ∀ b ∈ t, p b = false := fun b hb => h b (List.mem_cons_of_mem a hb)
      rw [List.cons_append, List.find?_cons_of_neg, ih ht]
      simp [ha]

theorem filter_cleared_director (l : List CrewRec) (mid : Nat) :
    ((l.filter (fun c => !(c.role == "Director" && c.movieId == mid))).filter
      (fun c => c.movieId == mid && c.role == "Director")) = [] := by
  induction l with
  | nil => rfl
  | cons a t ih =>
      by_cases hp : (a.role == "Director" && a.movieId == mid) = true
      · simp only [List.filter, hp, Bool.not_true]
        exact ih
      · have hp' : (a.role == "Director" && a.movieId == mid) = false := by
          simpa using hp
        have hq : (a.movieId == mid && a.role == "Director") = false := by
          rcases Bool.and_eq_false_iff.mp hp' with h | h
          · simp [h]
          · simp [h]
        simp only [List.filter, hp', Bool.not_false, hq]
        exact ih

theorem attachCreatorRoles_director_ok (db : DB) (rolesData : List String)
    (creator : UserRec) (movieId : Nat) (cp : ProfileRec)
    (hdir : db.roles.contains "Director" = true)
    (hprof : db.profiles.filter (fun pr => pr.userId == creator.id) = [cp]) :
    attachCreatorRoles db rolesData creator movieId true
      = .ok { db with crew :=
          (db.crew.filter (fun c => !(c.movieId == movieId
              && c.profileId == cp.id && !(c.role == "Director"))))
            ++ ((db.roles.filter (fun r =>
                (rolesData.filter (fun n => n ≠ "Director")).contains r)).map (fun r =>
                  ⟨cp.id, movieId, r⟩)) } := by
  unfold attachCreatorRoles roleGet getUnique
  simp only [hdir, if_true, hprof]

theorem attachCreatorRoles_nondirector_ok (db : DB) (rolesData : List String)
    (creator : UserRec) (movieId : Nat) (cp : ProfileRec)
    (hdir : db.roles.contains "Director" = true)
    (hprof : db.profiles.filter (fun pr => pr.userId == creator.id) = [cp]) :
    attachCreatorRoles db rolesData creator movieId false
      = .ok { db with crewReqs :=
          (db.crewReqs.filter (fun r => r.movieId != movieId))
            ++ ((db.roles.filter (fun r =>
                (rolesData.filter (fun n => n ≠ "Director")).contains r)).map (fun r =>
                  ⟨creator.id, creator.id, movieId, r, defaultCrewReqState⟩)) } := by
  unfold attachCreatorRoles roleGet getUnique
  simp only [hdir, if_true, hprof, Bool.false_eq_true, if_false]

theorem attachDirectorRole_creator_ok (db : DB) (directorData : Option DirectorData)
    (creator : UserRec) (movieId : Nat) (cp : ProfileRec)
    (hdir : db.roles.contains "Director" = true)
    (hprofEmail : db.profiles.filter (fun pr =>
        (db.users.find? (fun u => u.id == pr.userId)).any
          (fun u => u.email == creator.email)) = [cp]) :
    attachDirectorRole db directorData creator movieId true
      = .ok { db with crew :=
          (db.crew.filter (fun c => !(c.role == "Director" && c.movieId == movieId)))
            ++ [⟨cp.id, movieId, "Director"⟩] } := by
  unfold attachDirectorRole directorProfileFor roleGet
  cases directorData with
  | none => simp only [if_true, hprofEmail, hdir]
  | some d => simp only [if_true, hprofEmail, hdir]

theorem attachDirectorRole_external (db : DB) (d : DirectorData)
    (creator : UserRec) (movieId : Nat)
    (hdir : db.roles.contains "Director" = true)
    (hlen : (db.profiles.filter (fun pr =>
        (db.users.find? (fun u => u.id == pr.userId)).any
          (fun u => u.email == d.email))).length ≤ 1) :
    ∃ pid db', attachDirectorRole db (some d) creator movieId false = .ok db'
      ∧ db'.crew = (db.crew.filter
            (fun c => !(c.role == "Director" && c.movieId == movieId)))
          ++ [⟨pid, movieId, "Director"⟩]
      ∧ db'.crewReqs = db.crewReqs
      ∧ db'.movies = db.movies := by
  unfold attachDirectorRole directorProfileFor roleGet
  match hF : db.profiles.filter (fun pr =>
      (db.users.find? (fun u => u.id == pr.userId)).any
        (fun u => u.email == d.email)) with
  | [] =>
      simp only [Bool.false_eq_true, if_false, hF, hdir, if_true]
      exact ⟨db.nextId + 1, _, rfl, rfl, rfl, rfl⟩
  | [q] =>
      simp only [Bool.false_eq_true, if_false, hF, hdir, if_true]
      exact ⟨q.id, _, rfl, rfl, rfl, rfl⟩
  | a :: b :: t => simp [hF] at hlen

theorem any_append_director (l : List CrewRec) (pid mid : Nat) :
    ((l ++ [(⟨pid, mid, "Director"⟩ : CrewRec)]).any
      (fun c => c.movieId == mid && c.role == "Director")) = true := by
  simp

theorem movieCreateRest_director (db1 : DB) (user : UserRec) (p : CreatePayload)
    (cp : ProfileRec) (langId : Nat)
    (hrole : p.roles.any (fun r => r == "Director") = true)
    (hdir : db1.roles.contains "Director" = true)
    (hprofId : db1.profiles.filter (fun pr => pr.userId == user.id) = [cp])
    (hprofEmail : db1.profiles.filter (fun pr =>
        (db1.users.find? (fun u => u.id == pr.userId)).any
          (fun u => u.email == user.email)) = [cp])
    (hfresh : ∀ m ∈ db1.movies, m.id < db1.nextId) :
    ∃ db', movieCreateRest db1 user p langId = .ok (db', db1.nextId + 1)
      ∧ movieApproved db' (db1.nextId + 1) = some true
      ∧ db'.crew.filter
          (fun c => c.movieId == db1.nextId + 1 && c.role == "Director")
          = [⟨cp.id, db1.nextId + 1, "Director"⟩] := by
  unfold movieCreateRest
  simp only [hrole, if_true]
  rw [attachCreatorRoles_director_ok _ p.roles user _ cp]
  · dsimp only
    rw [attachDirectorRole_creator_ok _ p.director user _ cp]
    · dsimp only
      unfold isDirectorPresent roleGet
      simp only [hdir, if_true]
      rw [any_append_director]
      simp only [if_true]
      refine ⟨_, rfl, ?_, ?_⟩
      · unfold movieApproved
        rw [find?_append_right]
        · simp
        · intro m hm
          have : m.id ≠ db1.nextId + 1 :=
            Nat.ne_of_lt (Nat.lt_trans (hfresh m hm) (Nat.lt_succ_self _))
          simpa using this
      · rw [List.filter_append, filter_cleared_director]
        simp
    · exact hdir
    · exact hprofEmail
  · exact hdir
  · exact hprofId

theorem attachCreatorRoles_no_director_role (db : DB) (rolesData : List String)
    (creator : UserRec) (movieId : Nat) (cid : Bool)
    (hdir : db.roles.contains "Director" = false) :
    attachCreatorRoles db rolesData creator movieId cid
      = .error "Role matching query does not exist" := by
  unfold attachCreatorRoles roleGet
  rw [hdir]
  simp only [Bool.false_eq_true, if_false]

theorem movieCreateRest_no_director_role (db1 : DB) (user : UserRec)
    (p : CreatePayload) (langId : Nat)
    (hdir : db1.roles.contains "Director" = false) :
    movieCreateRest db1 user p langId
      = .error "Role matching query does not exist" := by
  unfold movieCreateRest
  simp only [attachCreatorRoles_no_director_role, hdir]

theorem movieCreate_success_validation (db : DB) (user : UserRec)
    (t lang : String) (genres roles : List String)
    (director : Option DirectorData) (out : DB × Nat)
    (hsucc : movieCreate db user t lang genres roles director = .ok out) :
    isAsciiStr (collapseWS t) = true
    ∧ roles.all (fun r => db.roles.contains r) = true
    ∧ db.roles.contains "Director" = true := by
  unfold movieCreate at hsucc
  split at hsucc
  · exact absurd hsucc (by simp)
  · rename_i x tv htv
    split at hsucc
    · exact absurd hsucc (by simp)
    · rename_i y rl hrl
      have htitle : isAsciiStr (collapseWS t) = true := by
        by_cases h : isAsciiStr (collapseWS t) = true
        · exact h
        · exfalso
          have hf : isAsciiStr (collapseWS t) = false := by simpa using h
          unfold validate_title at htv
          simp [hf] at htv
      have hvalid : roles.all (fun r => db.roles.contains r) = true := by
        by_cases h : roles.all (fun r => db.roles.contains r) = true
        · exact h
        · exfalso
          have hf : roles.all (fun r => db.roles.contains r) = false := by simpa using h
          unfold validateRoles at hrl
          rw [hf] at hrl
          simp at hrl
      refine ⟨htitle, hvalid, ?_⟩
      by_cases h : db.roles.contains "Director" = true
      · exact h
      · exfalso
        have hf : db.roles.contains "Director" = false := by simpa using h
        obtain ⟨hg, hr, hpk, hu, hpr, hm, ho, hc, hq, hn⟩ :=
          langGetOrCreate_frame db (normalizeName lang)
        unfold movieCreateBody at hsucc
        rw [movieCreateRest_no_director_role] at hsucc
        · exact Except.noConfusion hsucc
        · dsimp only
          rw [hr]
          exact hf

theorem movieCreate_director (db : DB) (user : UserRec) (t lang : String)
    (genres roles : List String) (director : Option DirectorData)
    (cp : ProfileRec)
    (hrole : roles.any (fun r => r == "Director") = true)
    (hvalid : roles.all (fun r => db.roles.contains r) = true)
    (htitle : isAsciiStr (collapseWS t) = true)
    (hdir : db.roles.contains "Director" = true)
    (hprofId : db.profiles.filter (fun pr => pr.userId == user.id) = [cp])
    (hprofEmail : db.profiles.filter (fun pr =>
        (db.users.find? (fun u => u.id == pr.userId)).any
          (fun u => u.email == user.email)) = [cp])
    (hfresh : ∀ m ∈ db.movies, m.id < db.nextId) :
    ∃ db' mid, movieCreate db user t lang genres roles director = .ok (db', mid)
      ∧ movieApproved db' mid = some true
      ∧ db'.crew.filter (fun c => c.movieId == mid && c.role == "Director")
          = [⟨cp.id, mid, "Director"⟩]
      ∧ cp.userId = user.id := by
  have hcpid : cp.userId = user.id := by
    have hmem : cp ∈ db.profiles.filter (fun pr => pr.userId == user.id) := by
      rw [hprofId]
      exact List.mem_singleton_self cp
    have := (List.mem_filter.mp hmem).2
    simpa using this
  have htv : validate_title t = .ok (pyTitle (collapseWS t)) := by
    unfold validate_title
    simp [htitle]
  obtain ⟨hg, hr, hpk, hu, hpr, hm, ho, hc, hq, hn⟩ :=
    langGetOrCreate_frame db (normalizeName lang)
  obtain ⟨db', heq, happ, hcrew⟩ :=
    movieCreateRest_director (langGetOrCreate db (normalizeName lang)).2 user
      ⟨pyTitle (collapseWS t), normalizeName lang,
        genres.map (fun n => if n == "" then "" else toLowerStr n), roles, director⟩
      cp (langGetOrCreate db (normalizeName lang)).1
      hrole
      (by rw [hr]; exact hdir)
      (by rw [hpr]; exact hprofId)
      (by rw [hpr, hu]; exact hprofEmail)
      (fun m hmem => lt_of_lt_of_le (hfresh m (hm ▸ hmem)) hn)
  refine ⟨db', (langGetOrCreate db (normalizeName lang)).2.nextId + 1, ?_, happ, hcrew, hcpid⟩
  unfold movieCreate validateRoles movieCreateBody
  rw [htv]
  simp only [hvalid, if_true]
  exact heq

/-! ### Claim C4: creator-director approval and sole Director crew -/

/-- C4: for every successful movie Create whose submitted role list
contains "Director" — with the creator owning exactly one profile,
that profile being the unique one reachable by the creator's email,
and the store's movie ids fresh below the id counter — the resulting
Movie is approved and carries exactly one Director CrewMember, whose
profile belongs to the submitting user. -/
theorem create_director_approved (db : DB) (user : UserRec) (t lang : String)
    (genres roles : List String) (director : Option DirectorData)
    (cp : ProfileRec) (db' : DB) (mid : Nat)
    (hrole : roles.any (fun r => r == "Director") = true)
    (hprofId : db.profiles.filter (fun pr => pr.userId == user.id) = [cp])
    (hprofEmail : db.profiles.filter (fun pr =>
        (db.users.find? (fun u => u.id == pr.userId)).any
          (fun u => u.email == user.email)) = [cp])
    (hfresh : ∀ m ∈ db.movies, m.id < db.nextId)
    (hsucc : movieCreate db user t lang genres roles director = .ok (db', mid)) :
    movieApproved db' mid = some true
    ∧ db'.crew.filter (fun c => c.movieId == mid && c.role == "Director")
        = [⟨cp.id, mid, "Director"⟩]
    ∧ cp.userId = user.id := by
  obtain ⟨htitle, hvalid, hdirRole⟩ :=
    movieCreate_success_validation db user t lang genres roles director _ hsucc
  obtain ⟨db'', mid'', heq, happ, hcrew, hcp⟩ :=
    movieCreate_director db user t lang genres roles director cp hrole hvalid
      htitle hdirRole hprofId hprofEmail hfresh
  rw [hsucc] at heq
  injection heq with h1
  cases h1
  exact ⟨happ, hcrew, hcp⟩

set_option maxRecDepth 10000 in
/-- Witness for C4: a concrete Create by a director-creator yields an
approved movie with a single Director CrewMember owned by the
creator's profile. -/
theorem create_director_approved_witness :
    movieApproved
        ⟨[(2, "english")], [], ["Director"], [], [⟨1, "a@x", "A", "B"⟩],
          [⟨1, 1, true⟩], [⟨4, "A Movie", 2, 3, "CREATED", true, none, []⟩],
          [⟨3, 1, none, none, none⟩], [⟨1, 4, "Director"⟩], [], 5⟩ 4 = some true
    ∧ (DB.crew ⟨[(2, "english")], [], ["Director"], [], [⟨1, "a@x", "A", "B"⟩],
          [⟨1, 1, true⟩], [⟨4, "A Movie", 2, 3, "CREATED", true, none, []⟩],
          [⟨3, 1, none, none, none⟩], [⟨1, 4, "Director"⟩], [], 5⟩).filter
        (fun c => c.movieId == 4 && c.role == "Director") = [⟨1, 4, "Director"⟩]
    ∧ (ProfileRec.userId ⟨1, 1, true⟩) = (UserRec.id ⟨1, "a@x", "A", "B"⟩) :=
  create_director_approved
    ⟨[], [], ["Director"], [], [⟨1, "a@x", "A", "B"⟩], [⟨1, 1, true⟩],
      [], [], [], [], 2⟩
    ⟨1, "a@x", "A", "B"⟩ "A Movie" "english" [] ["Director"] none ⟨1, 1, true⟩
    ⟨[(2, "english")], [], ["Director"], [], [⟨1, "a@x", "A", "B"⟩],
      [⟨1, 1, true⟩], [⟨4, "A Movie", 2, 3, "CREATED", true, none, []⟩],
      [⟨3, 1, none, none, none⟩], [⟨1, 4, "Director"⟩], [], 5⟩ 4
    (by decide) (by decide) (by decide) (by decide) (by decide)

/-! ### Claim C3: Create with roles exactly ["Director"] and no
director payload -/

set_option maxRecDepth 10000 in
/-- C3: the claim says that with creator roles exactly ["Director"]
and no separate director contact, `_attach_director_role` never runs,
no CrewMember is created, and Create raises "Director must be
provided" leaving no Movie row. On the code, Create succeeds: the
method injects the creator's email into the empty director dict, so a
Director CrewMember for the creator's profile is created and the
Movie row persists. -/
theorem creator_sole_director_counterexample :
    movieCreate
        ⟨[], [], ["Director"], [], [⟨1, "a@x", "A", "B"⟩], [⟨1, 1, true⟩],
          [], [], [], [], 2⟩
        ⟨1, "a@x", "A", "B"⟩ "A Movie" "english" [] ["Director"] none
      = .ok (⟨[(2, "english")], [], ["Director"], [], [⟨1, "a@x", "A", "B"⟩],
          [⟨1, 1, true⟩], [⟨4, "A Movie", 2, 3, "CREATED", true, none, []⟩],
          [⟨3, 1, none, none, none⟩], [⟨1, 4, "Director"⟩], [], 5⟩, 4) := by
  decide

/-- C3 (amended): for a Create whose creator role list is exactly
["Director"] with no separate director contact (and a well-formed
store: Role table contains Director, the creator's profile is unique
by user id and by email, movie ids fresh), `_attach_director_role`
does run — the code injects the creator's email into the empty
director dict — so Create succeeds, exactly one Director CrewMember
(the creator's profile) is created, and the Movie row persists; no
"Director must be provided" error is raised. -/
theorem create_sole_director_succeeds (db : DB) (user : UserRec)
    (t lang : String) (genres : List String) (cp : ProfileRec)
    (htitle : isAsciiStr (collapseWS t) = true)
    (hdir : db.roles.contains "Director" = true)
    (hprofId : db.profiles.filter (fun pr => pr.userId == user.id) = [cp])
    (hprofEmail : db.profiles.filter (fun pr =>
        (db.users.find? (fun u => u.id == pr.userId)).any
          (fun u => u.email == user.email)) = [cp])
    (hfresh : ∀ m ∈ db.movies, m.id < db.nextId) :
    ∃ db' mid, movieCreate db user t lang genres ["Director"] none = .ok (db', mid)
      ∧ db'.crew.filter (fun c => c.movieId == mid && c.role == "Director")
          = [⟨cp.id, mid, "Director"⟩]
      ∧ (db'.movies.find? (fun m => m.id == mid)).isSome = true := by
  obtain ⟨db', mid, heq, happ, hcrew, hcp⟩ :=
    movieCreate_director db user t lang genres ["Director"] none cp (by decide)
      (by simpa using hdir) htitle hdir hprofId hprofEmail hfresh
  refine ⟨db', mid, heq, hcrew, ?_⟩
  unfold movieApproved at happ
  cases hfind : db'.movies.find? (fun m => m.id == mid) with
  | none => rw [hfind] at happ; exact absurd happ (by simp)
  | some m => simp

set_option maxRecDepth 10000 in
/-- Witness for C3 (amended): the concrete sole-director Create
succeeds with the creator's profile as the only Director crew row. -/
theorem create_sole_director_succeeds_witness :
    ∃ db' mid, movieCreate
        ⟨[], [], ["Director"], [], [⟨2, "b@x", "C", "D"⟩], [⟨5, 2, true⟩],
          [], [], [], [], 7⟩
        ⟨2, "b@x", "C", "D"⟩ "Other Movie" "hindi" ["drama"] ["Director"] none
        = .ok (db', mid)
      ∧ db'.crew.filter (fun c => c.movieId == mid && c.role == "Director")
          = [⟨5, mid, "Director"⟩]
      ∧ (db'.movies.find? (fun m => m.id == mid)).isSome = true :=
  create_sole_director_succeeds
    ⟨[], [], ["Director"], [], [⟨2, "b@x", "C", "D"⟩], [⟨5, 2, true⟩],
      [], [], [], [], 7⟩
    ⟨2, "b@x", "C", "D"⟩ "Other Movie" "hindi" ["drama"] ⟨5, 2, true⟩
    (by decide) (by decide) (by decide) (by decide) (by decide)

/-! ### Claim C2: genre/language get-or-create -/

set_option maxRecDepth 10000 in
/-- C2: the language half of the claim matches the code
(`MovieLanguageSerializer.create` is get-or-create), but the genre
half does not: `_get_or_create_genres` never creates a `Genre` row.
Creating a movie with the unknown genre name "Noir" leaves the Genre
table unchanged and attaches no genre to the movie instead of
creating the row on first use: the direct call with an empty Genre
table returns no row at all. -/
theorem genre_get_or_create_code_bug :
    movieCreate
        ⟨[], [], ["Director"], [], [⟨1, "a@x", "A", "B"⟩], [⟨1, 1, true⟩],
          [], [], [], [], 2⟩
        ⟨1, "a@x", "A", "B"⟩ "A Movie" "english" ["Noir"] ["Director"] none
      = .ok (⟨[(2, "english")], [], ["Director"], [], [⟨1, "a@x", "A", "B"⟩],
          [⟨1, 1, true⟩], [⟨4, "A Movie", 2, 3, "CREATED", true, none, []⟩],
          [⟨3, 1, none, none, none⟩], [⟨1, 4, "Director"⟩], [], 5⟩, 4)
    ∧ getOrCreateGenres [] ["noir"] = []
    ∧ (langGetOrCreate ⟨[], [], [], [], [], [], [], [], [], [], 9⟩ "english").2.langs
        = [(9, "english")]
    ∧ (langGetOrCreate ⟨[(9, "english")], [], [], [], [], [], [], [], [], [], 10⟩
        "english").1 = 9 := by
  refine ⟨by decide, by decide, by decide, by decide⟩

theorem attachDirectorRole_external_existing (db : DB) (d : DirectorData)
    (creator : UserRec) (movieId : Nat) (q : ProfileRec)
    (hdir : db.roles.contains "Director" = true)
    (hF : db.profiles.filter (fun pr =>
        (db.users.find? (fun u => u.id == pr.userId)).any
          (fun u => u.email == d.email)) = [q]) :
    attachDirectorRole db (some d) creator movieId false
      = .ok { db with crew :=
          (db.crew.filter (fun c => !(c.role == "Director" && c.movieId == movieId)))
            ++ [⟨q.id, movieId, "Director"⟩] } := by
  unfold attachDirectorRole directorProfileFor roleGet
  simp only [Bool.false_eq_true, if_false, hF, hdir, if_true]

theorem attachDirectorRole_external_new (db : DB) (d : DirectorData)
    (creator : UserRec) (movieId : Nat)
    (hdir : db.roles.contains "Director" = true)
    (hF : db.profiles.filter (fun pr =>
        (db.users.find? (fun u => u.id == pr.userId)).any
          (fun u => u.email == d.email)) = []) :
    attachDirectorRole db (some d) creator movieId false
      = .ok { db with
          users := db.users ++ [⟨db.nextId, d.email, d.firstName, d.lastName⟩]
          profiles := db.profiles ++ [⟨db.nextId + 1, db.nextId, false⟩]
          crew := (db.crew.filter
              (fun c => !(c.role == "Director" && c.movieId == movieId)))
            ++ [⟨db.nextId + 1, movieId, "Director"⟩]
          nextId := db.nextId + 2 } := by
  unfold attachDirectorRole directorProfileFor roleGet
  simp only [Bool.false_eq_true, if_false, hF, hdir, if_true]

theorem filter_reqs_cleared (l : List CrewReqRec) (mid : Nat) :
    ((l.filter (fun r => r.movieId != mid)).filter
      (fun r => r.movieId == mid)) = [] := by
  induction l with
  | nil => rfl
  | cons a t ih =>
      by_cases h : (a.movieId == mid) = true
      · have hb : (a.movieId != mid) = false := by simp [bne, h]
        simp only [List.filter, hb]
        exact ih
      · have h' : (a.movieId == mid) = false := by simpa using h
        have hb : (a.movieId != mid) = true := by simp [bne, h']
        simp only [List.filter, hb, h']
        exact ih

theorem filter_reqs_new (rolesL : List String) (uid mid : Nat) :
    ((rolesL.map (fun r =>
        (⟨uid, uid, mid, r, defaultCrewReqState⟩ : CrewReqRec))).filter
      (fun r => r.movieId == mid))
      = rolesL.map (fun r => ⟨uid, uid, mid, r, defaultCrewReqState⟩) := by
  induction rolesL with
  | nil => rfl
  | cons r t ih => simp only [List.map, List.filter, beq_self_eq_true, ih]

theorem movieCreateRest_nondirector (db1 : DB) (user : UserRec)
    (p : CreatePayload) (cp : ProfileRec) (langId : Nat) (d : DirectorData)
    (hrole : p.roles.any (fun r => r == "Director") = false)
    (hdirdata : p.director = some d)
    (hdir : db1.roles.contains "Director" = true)
    (hprofId : db1.profiles.filter (fun pr => pr.userId == user.id) = [cp])
    (hemail : db1.profiles.filter (fun pr =>
        (db1.users.find? (fun u => u.id == pr.userId)).any
          (fun u => u.email == d.email)) = []
      ∨ ∃ q, db1.profiles.filter (fun pr =>
        (db1.users.find? (fun u => u.id == pr.userId)).any
          (fun u => u.email == d.email)) = [q])
    (hfresh : ∀ m ∈ db1.movies, m.id < db1.nextId) :
    ∃ db', movieCreateRest db1 user p langId = .ok (db', db1.nextId + 1)
      ∧ movieApproved db' (db1.nextId + 1) = some false
      ∧ db'.crewReqs.filter (fun r => r.movieId == db1.nextId + 1)
          = (db1.roles.filter (fun r =>
              (p.roles.filter (fun n => n ≠ "Director")).contains r)).map
            (fun r => ⟨user.id, user.id, db1.nextId + 1, r, defaultCrewReqState⟩) := by
  unfold movieCreateRest
  simp only [hrole, Bool.false_eq_true, if_false]
  rw [attachCreatorRoles_nondirector_ok _ p.roles user _ cp]
  · dsimp only
    rw [hdirdata]
    rcases hemail with hF | ⟨q, hF⟩
    · rw [attachDirectorRole_external_new _ d user _]
      · dsimp only
        unfold isDirectorPresent roleGet
        simp only [hdir, if_true]
        rw [any_append_director]
        simp only [if_true]
        refine ⟨_, rfl, ?_, ?_⟩
        · unfold movieApproved
          rw [find?_append_right]
          · simp [defaultMovieApproved]
          · intro m hm
            have : m.id ≠ db1.nextId + 1 :=
              Nat.ne_of_lt (Nat.lt_trans (hfresh m hm) (Nat.lt_succ_self _))
            simpa using this
        · rw [List.filter_append, filter_reqs_cleared, filter_reqs_new]
          simp
      · exact hdir
      · exact hF
    · rw [attachDirectorRole_external_existing _ d user _ q]
      · dsimp only
        unfold isDirectorPresent roleGet
        simp only [hdir, if_true]
        rw [any_append_director]
        simp only [if_true]
        refine ⟨_, rfl, ?_, ?_⟩
        · unfold movieApproved
          rw [find?_append_right]
          · simp [defaultMovieApproved]
          · intro m hm
            have : m.id ≠ db1.nextId + 1 :=
              Nat.ne_of_lt (Nat.lt_trans (hfresh m hm) (Nat.lt_succ_self _))
            simpa using this
        · rw [List.filter_append, filter_reqs_cleared, filter_reqs_new]
          simp
      · exact hdir
      · exact hF
  · exact hdir
  · exact hprofId

theorem movieCreate_nondirector (db : DB) (user : UserRec) (t lang : String)
    (genres roles : List String) (d : DirectorData) (cp : ProfileRec)
    (hrole : roles.any (fun r => r == "Director") = false)
    (hvalid : roles.all (fun r => db.roles.contains r) = true)
    (htitle : isAsciiStr (collapseWS t) = true)
    (hdir : db.roles.contains "Director" = true)
    (hprofId : db.profiles.filter (fun pr => pr.userId == user.id) = [cp])
    (hemail : db.profiles.filter (fun pr =>
        (db.users.find? (fun u => u.id == pr.userId)).any
          (fun u => u.email == d.email)) = []
      ∨ ∃ q, db.profiles.filter (fun pr =>
        (db.users.find? (fun u => u.id == pr.userId)).any
          (fun u => u.email == d.email)) = [q])
    (hfresh : ∀ m ∈ db.movies, m.id < db.nextId) :
    ∃ db' mid, movieCreate db user t lang genres roles (some d) = .ok (db', mid)
      ∧ movieApproved db' mid = some false
      ∧ db'.crewReqs.filter (fun r => r.movieId == mid)
          = (db.roles.filter (fun r =>
              (roles.filter (fun n => n ≠ "Director")).contains r)).map
            (fun r => ⟨user.id, user.id, mid, r, defaultCrewReqState⟩) := by
  have htv : validate_title t = .ok (pyTitle (collapseWS t)) := by
    unfold validate_title
    simp [htitle]
  obtain ⟨hg, hr, hpk, hu, hpr, hm, ho, hc, hq, hn⟩ :=
    langGetOrCreate_frame db (normalizeName lang)
  obtain ⟨db', heq, happ, hreq⟩ :=
    movieCreateRest_nondirector (langGetOrCreate db (normalizeName lang)).2 user
      ⟨pyTitle (collapseWS t), normalizeName lang,
        genres.map (fun n => if n == "" then "" else toLowerStr n), roles, some d⟩
      cp (langGetOrCreate db (normalizeName lang)).1 d
      hrole rfl
      (by rw [hr]; exact hdir)
      (by rw [hpr]; exact hprofId)
      (by rw [hpr, hu]; exact hemail)
      (fun m hmem => lt_of_lt_of_le (hfresh m (hm ▸ hmem)) hn)
  rw [hr] at hreq
  refine ⟨db', (langGetOrCreate db (normalizeName lang)).2.nextId + 1,
    ?_, happ, hreq⟩
  unfold movieCreate validateRoles movieCreateBody
  rw [htv]
  simp only [hvalid, if_true]
  exact heq

/-! ### Claim C7: non-director Create leaves approval unset and files
SUBMITTED crew requests -/

/-- C7: for every successful movie Create whose creator role list
excludes "Director" while a director contact is supplied (store
well-formed: unique creator profile, at most one profile matching the
director email, fresh movie ids), the resulting Movie is not approved
and a CrewMemberRequest row with state SUBMITTED (the spec-modelled
column default) exists for every submitted role, owned and requested
by the creator. -/
theorem create_nondirector_requests (db : DB) (user : UserRec) (t lang : String)
    (genres roles : List String) (d : DirectorData) (cp : ProfileRec)
    (db' : DB) (mid : Nat)
    (hnorole : roles.any (fun r => r == "Director") = false)
    (hprofId : db.profiles.filter (fun pr => pr.userId == user.id) = [cp])
    (hemail : db.profiles.filter (fun pr =>
        (db.users.find? (fun u => u.id == pr.userId)).any
          (fun u => u.email == d.email)) = []
      ∨ ∃ q, db.profiles.filter (fun pr =>
        (db.users.find? (fun u => u.id == pr.userId)).any
          (fun u => u.email == d.email)) = [q])
    (hfresh : ∀ m ∈ db.movies, m.id < db.nextId)
    (hsucc : movieCreate db user t lang genres roles (some d) = .ok (db', mid)) :
    movieApproved db' mid = some false
    ∧ ∀ r ∈ roles, ∃ req ∈ db'.crewReqs,
        req.movieId = mid ∧ req.role = r ∧ req.state = "SUBMITTED"
        ∧ req.userId = user.id ∧ req.requestorId = user.id := by
  obtain ⟨htitle, hvalid, hdirRole⟩ :=
    movieCreate_success_validation db user t lang genres roles (some d) _ hsucc
  obtain ⟨db'', mid'', heq, happ, hreq⟩ :=
    movieCreate_nondirector db user t lang genres roles d cp hnorole hvalid
      htitle hdirRole hprofId hemail hfresh
  rw [hsucc] at heq
  injection heq with h1
  cases h1
  refine ⟨happ, ?_⟩
  intro r hrmem
  have hrne : r ≠ "Director" := by
    intro hcontra
    have := List.any_eq_false.mp hnorole r hrmem
    rw [hcontra] at this
    simp at this
  have hrdb : r ∈ db.roles := by
    have := List.all_eq_true.mp hvalid r hrmem
    simpa using this
  have hmemf : r ∈ db.roles.filter (fun x =>
      (roles.filter (fun n => n ≠ "Director")).contains x) := by
    refine List.mem_filter.mpr ⟨hrdb, ?_⟩
    have : r ∈ roles.filter (fun n => n ≠ "Director") :=
      List.mem_filter.mpr ⟨hrmem, by simpa using hrne⟩
    simpa using this
  refine ⟨⟨user.id, user.id, mid, r, defaultCrewReqState⟩, ?_,
    rfl, rfl, rfl, rfl, rfl⟩
  have hmm : (⟨user.id, user.id, mid, r, defaultCrewReqState⟩ : CrewReqRec)
      ∈ db'.crewReqs.filter (fun q => q.movieId == mid) := by
    rw [hreq]
    exact List.mem_map_of_mem _ hmemf
  exact List.mem_of_mem_filter hmm

set_option maxRecDepth 10000 in
/-- Witness for C7: a concrete Create with creator role ["Actor"] and
an external director contact stores an unapproved movie and a
SUBMITTED Actor request for the creator. -/
theorem create_nondirector_requests_witness :
    movieApproved
        ⟨[(2, "english")], [], ["Director", "Actor"], [],
          [⟨1, "a@x", "A", "B"⟩, ⟨5, "d@x", "D", "E"⟩],
          [⟨1, 1, true⟩, ⟨6, 5, false⟩],
          [⟨4, "A Movie", 2, 3, "CREATED", false, none, []⟩],
          [⟨3, 1, none, none, none⟩], [⟨6, 4, "Director"⟩],
          [⟨1, 1, 4, "Actor", "SUBMITTED"⟩], 7⟩ 4 = some false
    ∧ ∃ req ∈ [(⟨1, 1, 4, "Actor", "SUBMITTED"⟩ : CrewReqRec)],
        req.movieId = 4 ∧ req.role = "Actor" ∧ req.state = "SUBMITTED"
        ∧ req.userId = 1 ∧ req.requestorId = 1 :=
  have h := create_nondirector_requests
    ⟨[], [], ["Director", "Actor"], [], [⟨1, "a@x", "A", "B"⟩], [⟨1, 1, true⟩],
      [], [], [], [], 2⟩
    ⟨1, "a@x", "A", "B"⟩ "A Movie" "english" [] ["Actor"] ⟨"D", "E", "d@x", none⟩
    ⟨1, 1, true⟩
    ⟨[(2, "english")], [], ["Director", "Actor"], [],
      [⟨1, "a@x", "A", "B"⟩, ⟨5, "d@x", "D", "E"⟩],
      [⟨1, 1, true⟩, ⟨6, 5, false⟩],
      [⟨4, "A Movie", 2, 3, "CREATED", false, none, []⟩],
      [⟨3, 1, none, none, none⟩], [⟨6, 4, "Director"⟩],
      [⟨1, 1, 4, "Actor", "SUBMITTED"⟩], 7⟩ 4
    (by decide) (by decide) (Or.inl (by decide)) (by decide) (by decide)
  ⟨h.1, h.2 "Actor" (by decide)⟩

/-! ## Movie Update (MovieSerializer.update) -/

/-- The post-validation payload of `MovieSerializer.update`; `none`
means the key is absent, `roles` defaults to the empty list as in
`validated_data.pop("roles", [])`. -/
structure UpdatePayload where
  title : Option String
  package : Option Package
  lang : Option String
  genresData : Option (List String)
  roles : List String
  director : Option DirectorData
  approved : Option Bool
deriving Repr, DecidableEq

/-- `MovieSerializer.validate_package` on an update (instance set):
reject when the movie already has a package, then require the
normalized package name to exist. -/
def validate_package (db : DB) (movieInst : MovieRow) (pkg : Package) :
    Except String Package :=
  if movieInst.packageName.isSome then .error "Cannot update package"
  else
    let package_name := normalizeName pkg.name
    if db.packages.any (fun q => q.name == package_name) then .ok pkg
    else .error "Invalid Package Selected"

/-- `MovieSerializer._update_order_details`: store the gateway order
id, amount, and receipt on the movie's Order row. -/
def updateOrderDetails (db : DB) (orderId : Nat) (rzp : Option RzpResponse) : DB :=
  match rzp with
  | none => db
  | some r =>
    { db with orders := db.orders.map (fun o =>
        if o.id == orderId then
          { o with orderId := some r.oid, amount := some r.amount
                   receiptNumber := some r.receipt }
        else o) }

/-- The package branch of `MovieSerializer.update`: resolve the
Package row, call the gateway for the movie's order owner (counting
that owner's existing orders), and store the gateway response on the
Order. -/
def packageStep (gateway : RzpRequest → Except String RzpResponse)
    (md5hex : String → String) (db : DB) (movie : MovieRow)
    (pkg : Option Package) : Except String (MovieRow × DB) :=
  match pkg with
  | none => .ok (movie, db)
  | some pkgData =>
    match getUnique db.packages
        (fun q => q.name == normalizeName pkgData.name) "Package" with
    | .error e => .error e
    | .ok pkgRow =>
      match getUnique db.orders (fun o => o.id == movie.orderId) "Order" with
      | .error e => .error e
      | .ok ord =>
        match getUnique db.users (fun u => u.id == ord.ownerId) "User" with
        | .error e => .error e
        | .ok ownerU =>
          match create_rzp_order gateway md5hex
              (db.orders.map (fun o => o.ownerId))
              (some pkgRow) (some ⟨ownerU.id, ownerU.email⟩) with
          | .error e => .error e
          | .ok rzp =>
            .ok ({ movie with packageName := some pkgRow.name },
                 updateOrderDetails db movie.orderId rzp)

/-- `MovieSerializer.update` (body, fields already validated): the
package branch, language get-or-create, attachment of creator roles
(only when a non-empty role list was submitted) and of the director
(only when director data was submitted), application and persistence
of the scalar fields (title, language, approved — injected as true for
a director-creator unless explicitly submitted), genre replacement
(only for a non-empty genre list), and the director-presence check. -/
def movieUpdateBody (gateway : RzpRequest → Except String RzpResponse)
    (md5hex : String → String) (db0 : DB) (user : UserRec)
    (movie0 : MovieRow) (p : UpdatePayload) : Except String (DB × Nat) :=
  match packageStep gateway md5hex db0 movie0 p.package with
  | .error e => .error e
  | .ok (movie1, db1) =>
    let langStep : Option Nat × DB :=
      match p.lang with
      | none => (none, db1)
      | some ln => ((langGetOrCreate db1 ln).1, (langGetOrCreate db1 ln).2)
    let db2 := langStep.2
    let creatorIsDirector := p.roles.any (fun r => r == "Director")
    let approvedVal : Option Bool :=
      match p.approved with
      | some b => some b
      | none => if creatorIsDirector then some true else none
    match (if p.roles.isEmpty then .ok db2
           else attachCreatorRoles db2 p.roles user movie0.id creatorIsDirector) with
    | .error e => .error e
    | .ok db3 =>
      match (match p.director with
             | some d => attachDirectorRole db3 (some d) user movie0.id creatorIsDirector
             | none => .ok db3) with
      | .error e => .error e
      | .ok db4 =>
        let movie2 : MovieRow :=
          { movie1 with
            title := p.title.getD movie1.title
            langId := (langStep.1).getD movie1.langId
            approved := approvedVal.getD movie1.approved }
        let db5 : DB := { db4 with
          movies := db4.movies.map (fun m => if m.id == movie0.id then movie2 else m) }
        let movie3 : MovieRow :=
          match p.genresData with
          | some gd =>
            if gd.isEmpty then movie2
            else { movie2 with
              genres := (getOrCreateGenres db5.genres gd).map (fun g => g.1) }
          | none => movie2
        let db6 : DB := { db5 with
          movies := db5.movies.map (fun m => if m.id == movie0.id then movie3 else m) }
        match isDirectorPresent db6 movie0.id with
        | .error e => .error e
        | .ok present =>
          if present then .ok (db6, movie0.id)
          else .error "Director must be provided"

/-- Field validation of an optional package key: `validate_package`
runs only when the key is present. -/
def validatePackageOpt (db : DB) (movie0 : MovieRow) (pkg : Option Package) :
    Except String (Option Package) :=
  match pkg with
  | none => .ok none
  | some pk =>
    match validate_package db movie0 pk with
    | .error e => .error e
    | .ok pk' => .ok (some pk')

/-- Field validation of an optional title key: `validate_title` runs
only when the key is present. -/
def validateTitleOpt (ti : Option String) : Except String (Option String) :=
  match ti with
  | none => .ok none
  | some t =>
    match validate_title t with
    | .error e => .error e
    | .ok t' => .ok (some t')

/-- The movie Update operation: look up the instance, run serializer
field validation (`validate_package`, `validate_title`, role
existence, language/genre name normalization), then
`MovieSerializer.update`; an error models the rolled-back transaction
(no row of any table is mutated). -/
def movieUpdate (gateway : RzpRequest → Except String RzpResponse)
    (md5hex : String → String) (db : DB) (user : UserRec) (movieId : Nat)
    (p : UpdatePayload) : Except String (DB × Nat) :=
  match db.movies.find? (fun m => m.id == movieId) with
  | none => .error "Movie matching query does not exist"
  | some movie0 =>
    match validatePackageOpt db movie0 p.package with
    | .error e => .error e
    | .ok vpkg =>
      match validateTitleOpt p.title with
      | .error e => .error e
      | .ok vtitle =>
        match validateRoles db p.roles with
        | .error e => .error e
        | .ok _ =>
          movieUpdateBody gateway md5hex db user movie0
            { p with
              title := vtitle
              package := vpkg
              lang := p.lang.map normalizeName
              genresData := p.genresData.map (fun gs =>
                gs.map (fun n => if n == "" then "" else toLowerStr n)) }

/-! ### Claim C5: package is write-once -/

/-- C5: every movie Update whose payload carries a package while the
movie's package is already set is rejected by `validate_package` with
"Cannot update package"; the operation returns an error, so neither
the Movie nor its Order is mutated (the transaction commits nothing). -/
theorem package_write_once (gateway : RzpRequest → Except String RzpResponse)
    (md5hex : String → String) (db : DB) (user : UserRec) (movieId : Nat)
    (p : UpdatePayload) (movie0 : MovieRow) (pk : Package)
    (hfind : db.movies.find? (fun m => m.id == movieId) = some movie0)
    (hset : movie0.packageName.isSome = true)
    (hpkg : p.package = some pk) :
    movieUpdate gateway md5hex db user movieId p
      = .error "Cannot update package" := by
  unfold movieUpdate validatePackageOpt validate_package
  simp only [hfind, hpkg, hset, if_true]

/-- Witness for C5: a concrete update carrying a package against a
movie whose package is already "gold" is rejected. -/
theorem package_write_once_witness :
    movieUpdate (fun _ => .error "unreachable") (fun s => s)
        ⟨[], [], ["Director"], [⟨"gold", 100⟩, ⟨"silver", 50⟩], [], [],
          [⟨4, "A Movie", 2, 3, "CREATED", true, some "gold", []⟩],
          [⟨3, 1, none, none, none⟩], [], [], 9⟩
        ⟨1, "a@x", "A", "B"⟩ 4
        ⟨none, some ⟨"Silver", 50⟩, none, none, [], none, none⟩
      = .error "Cannot update package" :=
  package_write_once (fun _ => .error "unreachable") (fun s => s)
    ⟨[], [], ["Director"], [⟨"gold", 100⟩, ⟨"silver", 50⟩], [], [],
      [⟨4, "A Movie", 2, 3, "CREATED", true, some "gold", []⟩],
      [⟨3, 1, none, none, none⟩], [], [], 9⟩
    ⟨1, "a@x", "A", "B"⟩ 4
    ⟨none, some ⟨"Silver", 50⟩, none, none, [], none, none⟩
    ⟨4, "A Movie", 2, 3, "CREATED", true, some "gold", []⟩ ⟨"Silver", 50⟩
    (by decide) (by decide) (by decide)

theorem attachCreatorRoles_ok_inv_nondirector (db : DB) (rolesData : List String)
    (creator : UserRec) (movieId : Nat) (db3 : DB)
    (h : attachCreatorRoles db rolesData creator movieId false = .ok db3) :
    db3.crewReqs = (db.crewReqs.filter (fun r => r.movieId != movieId))
      ++ (db.roles.filter (fun r =>
          (rolesData.filter (fun n => n ≠ "Director")).contains r)).map
        (fun r => ⟨creator.id, creator.id, movieId, r, defaultCrewReqState⟩) := by
  unfold attachCreatorRoles roleGet at h
  split at h
  · exact absurd h (by simp)
  · split at h
    · exact absurd h (by simp)
    · simp only [Bool.false_eq_true, if_false] at h
      cases h
      rfl

theorem directorProfileFor_ok_inv (db : DB) (d : DirectorData) (p : ProfileRec)
    (db2 : DB) (h : directorProfileFor db d = .ok (p, db2)) :
    db2.crewReqs = db.crewReqs ∧ db2.roles = db.roles ∧ db2.movies = db.movies
      ∧ db2.crew = db.crew := by
  unfold directorProfileFor at h
  split at h
  · cases h
    exact ⟨rfl, rfl, rfl, rfl⟩
  · cases h
    exact ⟨rfl, rfl, rfl, rfl⟩
  · exact absurd h (by simp)

theorem attachDirectorRole_ok_preserves (db : DB) (dd : Option DirectorData)
    (creator : UserRec) (movieId : Nat) (cid : Bool) (db' : DB)
    (h : attachDirectorRole db dd creator movieId cid = .ok db') :
    db'.crewReqs = db.crewReqs ∧ db'.roles = db.roles := by
  unfold attachDirectorRole roleGet at h
  split at h
  · dsimp only at h
    split at h
    · exact absurd h (by simp)
    · rename_i heqDPF
      split at h
      · exact absurd h (by simp)
      · cases h
        obtain ⟨h1, h2, _, _⟩ := directorProfileFor_ok_inv _ _ _ _ heqDPF
        exact ⟨h1, h2⟩
  · dsimp only at h
    split at h
    · cases h
      exact ⟨rfl, rfl⟩
    · split at h
      · exact absurd h (by simp)
      · rename_i heqDPF
        split at h
        · exact absurd h (by simp)
        · cases h
          obtain ⟨h1, h2, _, _⟩ := directorProfileFor_ok_inv _ _ _ _ heqDPF
          exact ⟨h1, h2⟩

theorem packageStep_ok_frame (gateway : RzpRequest → Except String RzpResponse)
    (md5hex : String → String) (db : DB) (movie : MovieRow)
    (pkg : Option Package) (movie1 : MovieRow) (db1 : DB)
    (h : packageStep gateway md5hex db movie pkg = .ok (movie1, db1)) :
    db1.crewReqs = db.crewReqs ∧ db1.roles = db.roles ∧ db1.movies = db.movies
      ∧ db1.profiles = db.profiles := by
  unfold packageStep at h
  split at h
  · cases h
    exact ⟨rfl, rfl, rfl, rfl⟩
  · split at h
    · exact absurd h (by simp)
    · split at h
      · exact absurd h (by simp)
      · split at h
        · exact absurd h (by simp)
        · split at h
          · exact absurd h (by simp)
          · cases h
            unfold updateOrderDetails
            split
            · exact ⟨rfl, rfl, rfl, rfl⟩
            · exact ⟨rfl, rfl, rfl, rfl⟩

theorem movieUpdateBody_clears_requests
    (gateway : RzpRequest → Except String RzpResponse)
    (md5hex : String → String) (db0 : DB) (user : UserRec)
    (movie0 : MovieRow) (p : UpdatePayload) (db' : DB) (mid : Nat)
    (hempty : p.roles.isEmpty = false)
    (hnorole : p.roles.any (fun r => r == "Director") = false)
    (hsucc : movieUpdateBody gateway md5hex db0 user movie0 p = .ok (db', mid)) :
    mid = movie0.id
    ∧ db'.crewReqs.filter (fun q => q.movieId == movie0.id)
      = (db0.roles.filter (fun r =>
          (p.roles.filter (fun n => n ≠ "Director")).contains r)).map
        (fun r => ⟨user.id, user.id, movie0.id, r, defaultCrewReqState⟩) := by
  unfold movieUpdateBody at hsucc
  split at hsucc
  · exact absurd hsucc (by simp)
  · rename_i movie1 db1 heqPkg
    obtain ⟨hpk1, hpk2, hpk3, hpk4⟩ := packageStep_ok_frame _ _ _ _ _ _ _ heqPkg
    have lCR : ∀ nm, (langGetOrCreate db1 nm).2.crewReqs = db1.crewReqs :=
      fun nm => ((langGetOrCreate_frame db1 nm).2.2.2.2.2.2.2.2).1
    have lRO : ∀ nm, (langGetOrCreate db1 nm).2.roles = db1.roles :=
      fun nm => (langGetOrCreate_frame db1 nm).2.1
    simp only [hempty, Bool.false_eq_true, if_false, hnorole] at hsucc
    split at hsucc
    · exact absurd hsucc (by simp)
    · rename_i x3 db3 heqA
      have hreq3 : db3.crewReqs
          = (db0.crewReqs.filter (fun r => r.movieId != movie0.id))
            ++ (db0.roles.filter (fun r =>
                (p.roles.filter (fun n => n ≠ "Director")).contains r)).map
              (fun r => ⟨user.id, user.id, movie0.id, r, defaultCrewReqState⟩) := by
        split at heqA
        · have h3 := attachCreatorRoles_ok_inv_nondirector _ _ _ _ _ heqA
          dsimp only at h3
          rw [hpk1, hpk2] at h3
          exact h3
        · have h3 := attachCreatorRoles_ok_inv_nondirector _ _ _ _ _ heqA
          dsimp only at h3
          simp only [lCR, lRO] at h3
          rw [hpk1, hpk2] at h3
          exact h3
      split at hsucc
      · exact absurd hsucc (by simp)
      · rename_i x4 db4 heqDir
        have hd1 : db4.crewReqs = db3.crewReqs := by
          split at heqDir
          · exact (attachDirectorRole_ok_preserves _ _ _ _ _ _ heqDir).1
          · cases heqDir
            rfl
        split at hsucc
        · exact absurd hsucc (by simp)
        · split at hsucc
          · cases hsucc
            refine ⟨rfl, ?_⟩
            dsimp only
            rw [hd1, hreq3, List.filter_append, filter_reqs_cleared,
              filter_reqs_new]
            simp
          · exact absurd hsucc (by simp)

/-! ### Claim C10: creator role submission wipes the movie's requests -/

/-- C10: whenever movie Create or movie Update is given a non-empty
creator role list that excludes "Director" (so the creator is not the
director), every CrewMemberRequest row of the affected movie —
including requests made by users other than the creator — is deleted
and the creator's fresh requests written, so the requests remaining
for that movie afterward are exactly the creator's new rows. -/
theorem creator_roles_replace_requests :
    (∀ (db : DB) (user : UserRec) (t lang : String)
        (genres roles : List String) (director : Option DirectorData)
        (db' : DB) (mid : Nat),
      roles ≠ [] →
      roles.any (fun r => r == "Director") = false →
      movieCreate db user t lang genres roles director = .ok (db', mid) →
      db'.crewReqs.filter (fun q => q.movieId == mid)
        = (db.roles.filter (fun r =>
            (roles.filter (fun n => n ≠ "Director")).contains r)).map
          (fun r => ⟨user.id, user.id, mid, r, defaultCrewReqState⟩))
    ∧ (∀ (gateway : RzpRequest → Except String RzpResponse)
        (md5hex : String → String) (db : DB) (user : UserRec) (movieId : Nat)
        (p : UpdatePayload) (db' : DB) (mid : Nat),
      p.roles ≠ [] →
      p.roles.any (fun r => r == "Director") = false →
      movieUpdate gateway md5hex db user movieId p = .ok (db', mid) →
      mid = movieId
      ∧ db'.crewReqs.filter (fun q => q.movieId == movieId)
        = (db.roles.filter (fun r =>
            (p.roles.filter (fun n => n ≠ "Director")).contains r)).map
          (fun r => ⟨user.id, user.id, movieId, r, defaultCrewReqState⟩)) := by
  constructor
  · intro db user t lang genres roles director db' mid hne hnorole hsucc
    obtain ⟨hg, hr, hpk, hu, hpr, hm, ho, hc, hq, hn⟩ :=
      langGetOrCreate_frame db (normalizeName lang)
    unfold movieCreate at hsucc
    split at hsucc
    · exact absurd hsucc (by simp)
    · split at hsucc
      · exact absurd hsucc (by simp)
      · unfold movieCreateBody movieCreateRest at hsucc
        simp only [hnorole, Bool.false_eq_true, if_false] at hsucc
        split at hsucc
        · exact absurd hsucc (by simp)
        · rename_i xA dbA heqA
          have hreq3 := attachCreatorRoles_ok_inv_nondirector _ _ _ _ _ heqA
          dsimp only at hreq3
          rw [hq, hr] at hreq3
          split at hsucc
          · exact absurd hsucc (by simp)
          · rename_i xD dbD heqD
            obtain ⟨hd1, hd2⟩ := attachDirectorRole_ok_preserves _ _ _ _ _ _ heqD
            split at hsucc
            · exact absurd hsucc (by simp)
            · split at hsucc
              · cases hsucc
                rw [hd1, hreq3, List.filter_append, filter_reqs_cleared,
                  filter_reqs_new]
                simp
              · exact absurd hsucc (by simp)
  · intro gateway md5hex db user movieId p db' mid hne hnorole hsucc
    have hempty : p.roles.isEmpty = false := by
      cases hpr : p.roles with
      | nil => exact absurd hpr hne
      | cons a l => rfl
    unfold movieUpdate at hsucc
    split at hsucc
    · exact absurd hsucc (by simp)
    · rename_i movie0 hfind
      have hmid0 : movie0.id = movieId := by
        have := List.find?_some hfind
        simpa using this
      split at hsucc
      · exact absurd hsucc (by simp)
      · rename_i xP vpkg heqP
        split at hsucc
        · exact absurd hsucc (by simp)
        · rename_i xT vtitle heqT
          split at hsucc
          · exact absurd hsucc (by simp)
          · obtain ⟨hmideq, hfilter⟩ :=
              movieUpdateBody_clears_requests gateway md5hex db user movie0
                { p with
                  title := vtitle
                  package := vpkg
                  lang := p.lang.map normalizeName
                  genresData := p.genresData.map (fun gs =>
                    gs.map (fun n => if n == "" then "" else toLowerStr n)) }
                db' mid (by exact hempty) (by exact hnorole) hsucc
            constructor
            · rw [hmideq]
              exact hmid0
            · rw [← hmid0]
              exact hfilter

set_option maxRecDepth 10000 in
/-- Witness for C10: a concrete Create (creator role Actor, external
director) leaves exactly the creator's fresh Actor request, and a
concrete Update with creator role Editor deletes another user's
pending request on the movie, leaving exactly the creator's fresh
Editor request. -/
theorem creator_roles_replace_requests_witness :
    ((DB.crewReqs
        ⟨[(2, "english")], [], ["Director", "Actor"], [],
          [⟨1, "a@x", "A", "B"⟩, ⟨5, "d@x", "D", "E"⟩],
          [⟨1, 1, true⟩, ⟨6, 5, false⟩],
          [⟨4, "A Movie", 2, 3, "CREATED", false, none, []⟩],
          [⟨3, 1, none, none, none⟩], [⟨6, 4, "Director"⟩],
          [⟨1, 1, 4, "Actor", "SUBMITTED"⟩], 7⟩).filter
        (fun q => q.movieId == 4)
      = ((["Director", "Actor"] : List String).filter (fun r =>
          ((["Actor"] : List String).filter (fun n => n ≠ "Director")).contains r)).map
        (fun r => ⟨1, 1, 4, r, defaultCrewReqState⟩))
    ∧ ((4 : Nat) = 4
      ∧ (DB.crewReqs
          ⟨[], [], ["Director", "Actor", "Editor"], [], [⟨1, "a@x", "A", "B"⟩],
            [⟨1, 1, true⟩], [⟨4, "M", 2, 3, "CREATED", true, none, []⟩],
            [⟨3, 1, none, none, none⟩], [⟨1, 4, "Director"⟩],
            [⟨9, 9, 5, "Actor", "SUBMITTED"⟩, ⟨1, 1, 4, "Editor", "SUBMITTED"⟩],
            10⟩).filter (fun q => q.movieId == 4)
        = ((["Director", "Actor", "Editor"] : List String).filter (fun r =>
            ((["Editor"] : List String).filter (fun n => n ≠ "Director")).contains r)).map
          (fun r => ⟨1, 1, 4, r, defaultCrewReqState⟩)) :=
  ⟨creator_roles_replace_requests.1
      ⟨[], [], ["Director", "Actor"], [], [⟨1, "a@x", "A", "B"⟩], [⟨1, 1, true⟩],
        [], [], [], [], 2⟩
      ⟨1, "a@x", "A", "B"⟩ "A Movie" "english" [] ["Actor"]
      (some ⟨"D", "E", "d@x", none⟩)
      ⟨[(2, "english")], [], ["Director", "Actor"], [],
        [⟨1, "a@x", "A", "B"⟩, ⟨5, "d@x", "D", "E"⟩],
        [⟨1, 1, true⟩, ⟨6, 5, false⟩],
        [⟨4, "A Movie", 2, 3, "CREATED", false, none, []⟩],
        [⟨3, 1, none, none, none⟩], [⟨6, 4, "Director"⟩],
        [⟨1, 1, 4, "Actor", "SUBMITTED"⟩], 7⟩ 4
      (by decide) (by decide) (by decide),
   creator_roles_replace_requests.2 (fun _ => .error "x") (fun s => s)
      ⟨[], [], ["Director", "Actor", "Editor"], [], [⟨1, "a@x", "A", "B"⟩],
        [⟨1, 1, true⟩], [⟨4, "M", 2, 3, "CREATED", true, none, []⟩],
        [⟨3, 1, none, none, none⟩], [⟨1, 4, "Director"⟩],
        [⟨9, 9, 4, "Actor", "SUBMITTED"⟩, ⟨9, 9, 5, "Actor", "SUBMITTED"⟩], 10⟩
      ⟨1, "a@x", "A", "B"⟩ 4 ⟨none, none, none, none, ["Editor"], none, none⟩
      ⟨[], [], ["Director", "Actor", "Editor"], [], [⟨1, "a@x", "A", "B"⟩],
        [⟨1, 1, true⟩], [⟨4, "M", 2, 3, "CREATED", true, none, []⟩],
        [⟨3, 1, none, none, none⟩], [⟨1, 4, "Director"⟩],
        [⟨9, 9, 5, "Actor", "SUBMITTED"⟩, ⟨1, 1, 4, "Editor", "SUBMITTED"⟩],
        10⟩ 4
      (by decide) (by decide) (by decide)⟩

/-! ### Claim C9: title normalization -/

set_option maxRecDepth 10000 in
/-- C9: the claim says a Create with title " the   Movie " stores the
title "The Movie". The code's `re.sub` collapses each whitespace run
to a single space but never strips the ends, so validation returns
" The Movie " — with a leading and a trailing space — and the created
movie row stores exactly that. -/
theorem title_normalization_counterexample :
    validate_title " the   Movie " = .ok " The Movie "
    ∧ " The Movie " ≠ "The Movie"
    ∧ ((movieCreate
        ⟨[], [], ["Director"], [], [⟨1, "a@x", "A", "B"⟩], [⟨1, 1, true⟩],
          [], [], [], [], 2⟩
        ⟨1, "a@x", "A", "B"⟩ " the   Movie " "english" [] ["Director"]
        none).toOption.map
      (fun out => (out.1.movies.find? (fun m => m.id == out.2)).map
        (fun m => m.title)))
      = some (some " The Movie ") := by
  refine ⟨by decide, by decide, by decide⟩

set_option maxRecDepth 10000 in
/-- C9 (amended): title validation collapses every whitespace run to a
single ASCII space without trimming the ends and title-cases the
result; a title still containing a non-ASCII character after that
normalization is rejected with the validation error. Consequently a
Create with title " the   Movie " stores " The Movie ". -/
theorem validate_title_spec (t : String) :
    (isAsciiStr (collapseWS t) = true →
      validate_title t = .ok (pyTitle (collapseWS t)))
    ∧ (isAsciiStr (collapseWS t) = false →
      validate_title t
        = .error "Movie title should be in English i.e., characters [A-Z] and [0-9]")
    ∧ ((movieCreate
        ⟨[], [], ["Director"], [], [⟨1, "a@x", "A", "B"⟩], [⟨1, 1, true⟩],
          [], [], [], [], 2⟩
        ⟨1, "a@x", "A", "B"⟩ " the   Movie " "english" [] ["Director"]
        none).toOption.map
      (fun out => (out.1.movies.find? (fun m => m.id == out.2)).map
        (fun m => m.title)))
      = some (some (pyTitle (collapseWS " the   Movie "))) := by
  refine ⟨?_, ?_, by decide⟩
  · intro h
    unfold validate_title
    simp [h]
  · intro h
    unfold validate_title
    simp [h]

/-- Witness for C9 (amended): the ASCII title " the   Movie " is
accepted with whitespace collapsed and title-cased, and the non-ASCII
title "héllo" is rejected. -/
theorem validate_title_spec_witness :
    validate_title " the   Movie " = .ok (pyTitle (collapseWS " the   Movie "))
    ∧ validate_title "héllo"
      = .error "Movie title should be in English i.e., characters [A-Z] and [0-9]" :=
  ⟨(validate_title_spec " the   Movie ").1 (by decide),
   (validate_title_spec "héllo").2.1 (by decide)⟩

end Moviepedia
